import Mathlib

/-!
Shallow embedding of the Mergington High School activities service
(`src/app.py` and `src/database.py`).

The SQLite store is modelled as three lists of rows (users, activities,
registrations) in insertion order, together with the `AUTOINCREMENT`
counters of the three tables.  Each repository method of `database.py`
becomes an explicit state-passing Lean function; the two mutating HTTP
handlers of `app.py` become functions returning an `Except` outcome
paired with the resulting store.
-/

set_option autoImplicit false

namespace Activities

/-- A row of the `users` table (only the columns the code reads:
`id` and `email`; `name`, `grade_level`, `created_at` are never read). -/
structure UserRow where
  id : Nat
  email : String
deriving DecidableEq

/-- A row of the `activities` table (columns the code reads and writes). -/
structure ActivityRow where
  id : Nat
  name : String
  description : String
  schedule : String
  maxParticipants : Int
deriving DecidableEq

/-- A row of the `registrations` table. -/
structure RegistrationRow where
  id : Nat
  userId : Nat
  activityId : Nat
deriving DecidableEq

/-- The whole SQLite store: the three tables (rows in rowid order) and
the next `AUTOINCREMENT` value of each table. -/
structure Store where
  users : List UserRow
  activities : List ActivityRow
  registrations : List RegistrationRow
  nextUserId : Nat
  nextActivityId : Nat
  nextRegId : Nat
deriving DecidableEq

/-- A freshly initialized database: empty tables, autoincrement at 1. -/
def Store.empty : Store := ⟨[], [], [], 1, 1, 1⟩

/-- `UserRepository.get_or_create_user`: `SELECT id FROM users WHERE email = ?`;
if a row is found return its id, otherwise `INSERT INTO users (email)` and
return `cursor.lastrowid`. -/
def get_or_create_user (email : String) (st : Store) : Nat × Store :=
  match st.users.find? (fun u => u.email == email) with
  | some u => (u.id, st)
  | none =>
      (st.nextUserId,
       { st with users := st.users ++ [⟨st.nextUserId, email⟩],
                 nextUserId := st.nextUserId + 1 })

/-- `UserRepository.is_user_registered`: `SELECT id FROM registrations WHERE
user_id = ? AND activity_id = ?`, non-empty result. -/
def is_user_registered (userId activityId : Nat) (st : Store) : Bool :=
  (st.registrations.find?
    (fun r => r.userId == userId && r.activityId == activityId)).isSome

/-- `ActivityRepository.activity_exists`: `SELECT id FROM activities WHERE
name = ?`, non-empty result. -/
def activity_exists (name : String) (st : Store) : Bool :=
  (st.activities.find? (fun a => a.name == name)).isSome

/-- `ActivityRepository.get_activity_id`: id of the first row whose name
matches, or `none`. -/
def get_activity_id (name : String) (st : Store) : Option Nat :=
  (st.activities.find? (fun a => a.name == name)).map (fun a => a.id)

/-- Storage-layer failure raised by SQLite. -/
inductive DBError where
  | uniqueViolation
deriving DecidableEq

/-- `RegistrationRepository.register_user`: a bare
`INSERT INTO registrations (user_id, activity_id)`.  The schema declares
`UNIQUE(user_id, activity_id)`, so the insert raises an integrity error
when the pair is already present and the table is left unchanged;
otherwise the row is appended. -/
def register_user (userId activityId : Nat) (st : Store) :
    Except DBError Unit × Store :=
  if st.registrations.any
      (fun r => r.userId == userId && r.activityId == activityId) then
    (.error .uniqueViolation, st)
  else
    (.ok (),
     { st with
        registrations := st.registrations ++ [⟨st.nextRegId, userId, activityId⟩],
        nextRegId := st.nextRegId + 1 })

/-- `RegistrationRepository.unregister_user`: `DELETE FROM registrations
WHERE user_id = ? AND activity_id = ?`, returning `cursor.rowcount > 0`. -/
def unregister_user (userId activityId : Nat) (st : Store) : Bool × Store :=
  let remaining := st.registrations.filter
    (fun r => !(r.userId == userId && r.activityId == activityId))
  (decide (remaining.length < st.registrations.length),
   { st with registrations := remaining })

/-- The per-activity participant query of
`ActivityRepository.get_all_activities`: `SELECT u.email FROM users u JOIN
registrations r ON u.id = r.user_id WHERE r.activity_id = ?`. -/
def activity_participants (activityId : Nat) (st : Store) : List String :=
  (st.registrations.filter (fun r => r.activityId == activityId)).filterMap
    (fun r => (st.users.find? (fun u => u.id == r.userId)).map (fun u => u.email))

/-- The value stored under each activity name in the dict built by
`get_all_activities`. -/
structure ActivityInfo where
  description : String
  schedule : String
  maxParticipants : Int
  participants : List String
deriving DecidableEq

/-- `ActivityRepository.get_all_activities`: one entry per row of the
activities table (the outer `LEFT JOIN ... GROUP BY a.id` query yields one
grouped row per activity), keyed by name, with the participant emails
from the per-activity join. -/
def get_all_activities (st : Store) : List (String × ActivityInfo) :=
  st.activities.map (fun a =>
    (a.name,
     ⟨a.description, a.schedule, a.maxParticipants, activity_participants a.id st⟩))

/-- One value of the seed mapping in `app.py`: description, schedule,
max participants and the participant email list. -/
structure SeedActivity where
  description : String
  schedule : String
  maxParticipants : Int
  participants : List String
deriving DecidableEq

/-- `INSERT OR IGNORE INTO users (email) VALUES (?)`: insert a fresh row
unless a row with this email exists. -/
def insert_or_ignore_user (email : String) (st : Store) : Store :=
  if st.users.any (fun u => u.email == email) then st
  else
    { st with users := st.users ++ [⟨st.nextUserId, email⟩],
              nextUserId := st.nextUserId + 1 }

/-- The body of the inner participant loop of
`DatabaseManager.migrate_existing_data`: insert-or-ignore the user, look
the user id up by email, then `INSERT OR IGNORE` the registration pair. -/
def seed_participant (activityId : Nat) (st : Store) (email : String) : Store :=
  let st1 := insert_or_ignore_user email st
  match st1.users.find? (fun u => u.email == email) with
  | none => st1
  | some u =>
      if st1.registrations.any
          (fun r => r.userId == u.id && r.activityId == activityId) then st1
      else
        { st1 with
            registrations := st1.registrations ++ [⟨st1.nextRegId, u.id, activityId⟩],
            nextRegId := st1.nextRegId + 1 }

/-- The body of the outer activity loop of `migrate_existing_data`:
insert the activity row, remember `cursor.lastrowid`, then run the
participant loop. -/
def seed_activity (st : Store) (entry : String × SeedActivity) : Store :=
  let aid := st.nextActivityId
  let st1 :=
    { st with
        activities := st.activities ++
          [⟨aid, entry.1, entry.2.description, entry.2.schedule,
            entry.2.maxParticipants⟩],
        nextActivityId := aid + 1 }
  entry.2.participants.foldl (seed_participant aid) st1

/-- `DatabaseManager.migrate_existing_data`: `SELECT COUNT(*) FROM
activities`; only when the count is zero, loop over the seed mapping (in
insertion order, as Python dicts preserve it). -/
def migrate_existing_data (data : List (String × SeedActivity)) (st : Store) :
    Store :=
  if st.activities.length == 0 then data.foldl seed_activity st
  else st

/-- The payload of a FastAPI `HTTPException`. -/
structure HTTPException where
  statusCode : Nat
  detail : String
deriving DecidableEq

/-- The `signup_for_activity` handler of `app.py`: 404 if the activity
name is unknown; resolve the activity id; get-or-create the user; 400 if
already registered; otherwise insert the registration and return the
confirmation message.  The store after the handler is returned alongside
the outcome (an unhandled integrity error would surface as a 500). -/
def signup_for_activity (activityName email : String) (st : Store) :
    Except HTTPException String × Store :=
  if !(activity_exists activityName st) then
    (.error ⟨404, "Activity not found"⟩, st)
  else
    match get_activity_id activityName st with
    | none => (.error ⟨404, "Activity not found"⟩, st)
    | some activityId =>
        let res := get_or_create_user email st
        let userId := res.1
        let st1 := res.2
        if is_user_registered userId activityId st1 then
          (.error ⟨400, "Student is already signed up"⟩, st1)
        else
          let res2 := register_user userId activityId st1
          match res2.1 with
          | .error _ => (.error ⟨500, "Internal Server Error"⟩, res2.2)
          | .ok _ =>
              (.ok ("Signed up " ++ email ++ " for " ++ activityName), res2.2)

/-- The `unregister_from_activity` handler of `app.py`: 404 if the
activity name is unknown; resolve the activity id; get-or-create the
user; 400 if the user is not registered; otherwise delete the
registration, returning 500 if the delete reports zero rows. -/
def unregister_from_activity (activityName email : String) (st : Store) :
    Except HTTPException String × Store :=
  if !(activity_exists activityName st) then
    (.error ⟨404, "Activity not found"⟩, st)
  else
    match get_activity_id activityName st with
    | none => (.error ⟨404, "Activity not found"⟩, st)
    | some activityId =>
        let res := get_or_create_user email st
        let userId := res.1
        let st1 := res.2
        if !(is_user_registered userId activityId st1) then
          (.error ⟨400, "Student is not signed up for this activity"⟩, st1)
        else
          let res2 := unregister_user userId activityId st1
          if res2.1 then
            (.ok ("Unregistered " ++ email ++ " from " ++ activityName), res2.2)
          else
            (.error ⟨500, "Failed to unregister student"⟩, res2.2)

/-- Well-formedness of a store, as guaranteed by the SQLite schema
(`UNIQUE` on emails, names and registration pairs; primary keys) and by
`AUTOINCREMENT` (every existing id is below the next one). -/
def Store.WF (st : Store) : Prop :=
  (st.users.map (fun u => u.email)).Nodup ∧
  (st.users.map (fun u => u.id)).Nodup ∧
  (∀ u ∈ st.users, u.id < st.nextUserId) ∧
  (st.activities.map (fun a => a.name)).Nodup ∧
  (st.activities.map (fun a => a.id)).Nodup ∧
  (∀ a ∈ st.activities, a.id < st.nextActivityId) ∧
  (st.registrations.map (fun r => (r.userId, r.activityId))).Nodup ∧
  (∀ r ∈ st.registrations, r.userId < st.nextUserId)

instance (st : Store) : Decidable st.WF := by
  unfold Store.WF; infer_instance

/-! ### Generic lemmas about lookup by a unique key

The SQLite `UNIQUE` constraints make `find?` by email, by name, or by
registration pair deterministic; these lemmas package that reasoning. -/

/-- In a list whose key projection is duplicate-free, `find?` by the key
of a member returns exactly that member. -/
theorem find_unique_key {α β : Type} [DecidableEq β] (f : α → β) :
    ∀ (l : List α) (a : α), (l.map f).Nodup → a ∈ l →
      l.find? (fun x => f x == f a) = some a := by
  intro l
  induction l with
  | nil => intro a _ ha; cases ha
  | cons x xs ih =>
      intro a hnd hmem
      rw [List.map_cons, List.nodup_cons] at hnd
      rcases List.mem_cons.mp hmem with h | h
      · subst h
        simp [List.find?]
      · have hne : f x ≠ f a := by
          intro he
          exact hnd.1 (he ▸ List.mem_map_of_mem f h)
        rw [List.find?_cons_of_neg, ih a hnd.2 h]
        simpa using hne

/-- In a list whose key projection is duplicate-free, filtering by the
key of a member yields exactly that member. -/
theorem filter_unique_key {α β : Type} [DecidableEq β] (f : α → β) :
    ∀ (l : List α) (a : α), (l.map f).Nodup → a ∈ l →
      l.filter (fun x => f x == f a) = [a] := by
  intro l
  induction l with
  | nil => intro a _ ha; cases ha
  | cons x xs ih =>
      intro a hnd hmem
      rw [List.map_cons, List.nodup_cons] at hnd
      rcases List.mem_cons.mp hmem with h | h
      · subst h
        rw [List.filter_cons_of_pos (by simp)]
        have : xs.filter (fun y => f y == f a) = [] := by
          rw [List.filter_eq_nil_iff]
          intro y hy hfy
          exact hnd.1 ((eq_of_beq hfy) ▸ List.mem_map_of_mem f hy)
        rw [this]
      · have hne : f x ≠ f a := by
          intro he
          exact hnd.1 (he ▸ List.mem_map_of_mem f h)
        rw [List.filter_cons_of_neg (by simpa using hne), ih a hnd.2 h]

/-- Two members of a list with duplicate-free keys that share a key are
the same element. -/
theorem mem_unique_key {α β : Type} [DecidableEq β] (f : α → β) (l : List α)
    (hnd : (l.map f).Nodup) (a b : α) (ha : a ∈ l) (hb : b ∈ l)
    (hfe : f b = f a) : b = a := by
  have hfind := find_unique_key f l a hnd ha
  have hb' : b ∈ l.filter (fun x => f x == f a) := by
    rw [List.mem_filter]
    exact ⟨hb, by simpa using hfe⟩
  rw [filter_unique_key f l a hnd ha] at hb'
  simpa using hb'

/-! ### Characterization of `get_or_create_user` -/

/-- When a user row with the email exists, `get_or_create_user` returns
its id and leaves the store unchanged. -/
theorem get_or_create_user_found (e : String) (st : Store) (u : UserRow)
    (hfind : st.users.find? (fun x => x.email == e) = some u) :
    get_or_create_user e st = (u.id, st) := by
  simp [get_or_create_user, hfind]

/-- When no user row with the email exists, `get_or_create_user` appends
a fresh row and returns the fresh id. -/
theorem get_or_create_user_new (e : String) (st : Store)
    (hfind : st.users.find? (fun x => x.email == e) = none) :
    get_or_create_user e st =
      (st.nextUserId,
       { st with users := st.users ++ [⟨st.nextUserId, e⟩],
                 nextUserId := st.nextUserId + 1 }) := by
  simp [get_or_create_user, hfind]

/-- A small concrete well-formed store used to instantiate theorems:
the "Chess Club" activity (capacity 2) with its two seeded participants
already registered. -/
def demo : Store :=
  ⟨[⟨1, "michael@mergington.edu"⟩, ⟨2, "daniel@mergington.edu"⟩],
   [⟨1, "Chess Club", "Learn strategies", "Fridays", 2⟩],
   [⟨1, 1, 1⟩, ⟨2, 2, 1⟩], 3, 2, 3⟩

/-- Claim C2: calling `get_or_create_user` twice with the same email
returns the same identifier both times, leaves exactly one user row with
that email, returns the existing row's id without inserting when the
email is present, and otherwise inserts one fresh row and returns its
newly assigned id. -/
theorem get_or_create_user_spec (e : String) (st : Store)
    (h : (st.users.map (fun u => u.email)).Nodup) :
    ((get_or_create_user e (get_or_create_user e st).2).1 =
       (get_or_create_user e st).1) ∧
    (((get_or_create_user e (get_or_create_user e st).2).2.users.filter
        (fun u => u.email == e)).length = 1) ∧
    (∀ u ∈ st.users, u.email = e → get_or_create_user e st = (u.id, st)) ∧
    ((∀ u ∈ st.users, u.email ≠ e) →
       (get_or_create_user e st).1 = st.nextUserId ∧
       (get_or_create_user e st).2.users = st.users ++ [⟨st.nextUserId, e⟩]) := by
  cases hfind : st.users.find? (fun x => x.email == e) with
  | some u =>
      have hmem : u ∈ st.users := List.mem_of_find?_eq_some hfind
      have hue : u.email = e := by
        have := List.find?_some hfind
        simpa using this
      have key : get_or_create_user e st = (u.id, st) :=
        get_or_create_user_found e st u hfind
      refine ⟨by simp [key], ?_, ?_, ?_⟩
      · have hflt : st.users.filter (fun x => x.email == u.email) = [u] :=
          filter_unique_key (fun x => x.email) st.users u h hmem
        rw [hue] at hflt
        simp [key, hflt]
      · intro v hv hve
        have : v = u :=
          mem_unique_key (fun x => x.email) st.users h u v hmem hv
            (by simp [hve, hue])
        rw [this, key]
      · intro hall
        exact absurd hue (hall u hmem)
  | none =>
      have hall : ∀ u ∈ st.users, ¬(u.email == e) = true :=
        List.find?_eq_none.mp hfind
      rw [get_or_create_user_new e st hfind]
      have hfind2 :
          (st.users ++ [(⟨st.nextUserId, e⟩ : UserRow)]).find?
            (fun x => x.email == e) = some ⟨st.nextUserId, e⟩ := by
        rw [List.find?_append, hfind]
        simp
      refine ⟨?_, ?_, ?_, fun _ => ⟨rfl, rfl⟩⟩
      · rw [get_or_create_user_found e _ ⟨st.nextUserId, e⟩ hfind2]
      · rw [get_or_create_user_found e _ ⟨st.nextUserId, e⟩ hfind2]
        have h1 : st.users.filter (fun u => u.email == e) = [] := by
          rw [List.filter_eq_nil_iff]; exact hall
        simp [List.filter_append, h1]
      · intro v hv hve
        exact absurd (by simpa using hve) (hall v hv)

/-- Witness for C2 at a concrete store: looking up an existing email
twice returns its id both times and keeps a single row for it. -/
theorem get_or_create_user_spec_witness :
    ((get_or_create_user "daniel@mergington.edu"
        (get_or_create_user "daniel@mergington.edu" demo).2).1 =
       (get_or_create_user "daniel@mergington.edu" demo).1) ∧
    (((get_or_create_user "daniel@mergington.edu"
        (get_or_create_user "daniel@mergington.edu" demo).2).2.users.filter
          (fun u => u.email == "daniel@mergington.edu")).length = 1) ∧
    (∀ u ∈ demo.users, u.email = "daniel@mergington.edu" →
       get_or_create_user "daniel@mergington.edu" demo = (u.id, demo)) ∧
    ((∀ u ∈ demo.users, u.email ≠ "daniel@mergington.edu") →
       (get_or_create_user "daniel@mergington.edu" demo).1 = demo.nextUserId ∧
       (get_or_create_user "daniel@mergington.edu" demo).2.users =
         demo.users ++ [⟨demo.nextUserId, "daniel@mergington.edu"⟩]) :=
  get_or_create_user_spec "daniel@mergington.edu" demo (by decide)

/-! ### Registration-check lemmas -/

/-- `any` agrees with the `isSome` of `find?` for the same predicate. -/
theorem any_eq_find?_isSome {α : Type} (p : α → Bool) (l : List α) :
    l.any p = (l.find? p).isSome := by
  rw [Bool.eq_iff_iff]
  simp [List.any_eq_true, List.find?_isSome]

/-- A user id that occurs in no registration row is reported as not
registered, for any activity. -/
theorem is_user_registered_eq_false (uid aid : Nat) (st : Store)
    (h : ∀ r ∈ st.registrations, r.userId ≠ uid) :
    is_user_registered uid aid st = false := by
  unfold is_user_registered
  have hnone : st.registrations.find?
      (fun r => r.userId == uid && r.activityId == aid) = none := by
    rw [List.find?_eq_none]
    intro r hr hp
    simp only [Bool.and_eq_true, beq_iff_eq] at hp
    exact h r hr hp.1
  rw [hnone]
  rfl

/-- When the pair is not currently registered, `register_user` succeeds
and appends exactly one registration row. -/
theorem register_user_not_registered (uid aid : Nat) (st : Store)
    (h : is_user_registered uid aid st = false) :
    register_user uid aid st =
      (.ok (),
       { st with
           registrations := st.registrations ++ [⟨st.nextRegId, uid, aid⟩],
           nextRegId := st.nextRegId + 1 }) := by
  unfold is_user_registered at h
  unfold register_user
  rw [any_eq_find?_isSome, h]
  rfl

/-- When the pair is registered, `register_user` hits the `UNIQUE`
constraint and leaves the store unchanged. -/
theorem register_user_registered (uid aid : Nat) (st : Store)
    (h : is_user_registered uid aid st = true) :
    register_user uid aid st = (.error .uniqueViolation, st) := by
  unfold is_user_registered at h
  unfold register_user
  rw [any_eq_find?_isSome, h]
  rfl

/-! ### The signup handler, case by case -/

/-- Unknown activity name: signup returns 404 and the store is untouched. -/
theorem signup_not_found (n e : String) (st : Store)
    (hex : activity_exists n st = false) :
    signup_for_activity n e st = (.error ⟨404, "Activity not found"⟩, st) := by
  unfold signup_for_activity
  rw [hex]
  rfl

/-- Already-registered user: signup returns 400 and the store is
untouched (the user row existed, so `get_or_create_user` inserted
nothing). -/
theorem signup_already_registered (n e : String) (st : Store) (h : st.WF)
    (a : ActivityRow) (ha : a ∈ st.activities) (hn : a.name = n)
    (u : UserRow) (hu : u ∈ st.users) (hue : u.email = e)
    (hr : is_user_registered u.id a.id st = true) :
    signup_for_activity n e st =
      (.error ⟨400, "Student is already signed up"⟩, st) := by
  obtain ⟨hem, -, -, hnames, -, -, -, -⟩ := h
  subst hn
  subst hue
  have hfindA : st.activities.find? (fun x => x.name == a.name) = some a :=
    find_unique_key (fun x => x.name) st.activities a hnames ha
  have hfindU : st.users.find? (fun x => x.email == u.email) = some u :=
    find_unique_key (fun x => x.email) st.users u hem hu
  have key : get_or_create_user u.email st = (u.id, st) :=
    get_or_create_user_found u.email st u hfindU
  unfold signup_for_activity
  rw [show activity_exists a.name st = true by
        unfold activity_exists; rw [hfindA]; rfl]
  rw [show get_activity_id a.name st = some a.id by
        unfold get_activity_id; rw [hfindA]; rfl]
  simp [key, hr]

/-- Activity present and user (if any) not yet registered: signup
appends exactly one registration row for the resolved (user, activity)
pair and returns the confirmation message. -/
theorem signup_success (n e : String) (st : Store) (h : st.WF)
    (a : ActivityRow) (ha : a ∈ st.activities) (hn : a.name = n)
    (hnr : ∀ u ∈ st.users, u.email = e → is_user_registered u.id a.id st = false) :
    signup_for_activity n e st =
      (.ok ("Signed up " ++ e ++ " for " ++ n),
       { (get_or_create_user e st).2 with
           registrations := st.registrations ++
             [⟨st.nextRegId, (get_or_create_user e st).1, a.id⟩],
           nextRegId := st.nextRegId + 1 }) := by
  obtain ⟨hem, -, -, hnames, -, -, -, hreg⟩ := h
  subst hn
  have hfindA : st.activities.find? (fun x => x.name == a.name) = some a :=
    find_unique_key (fun x => x.name) st.activities a hnames ha
  unfold signup_for_activity
  rw [show activity_exists a.name st = true by
        unfold activity_exists; rw [hfindA]; rfl]
  rw [show get_activity_id a.name st = some a.id by
        unfold get_activity_id; rw [hfindA]; rfl]
  cases hfindU : st.users.find? (fun x => x.email == e) with
  | some u =>
      have hmem : u ∈ st.users := List.mem_of_find?_eq_some hfindU
      have hue : u.email = e := by simpa using List.find?_some hfindU
      have key : get_or_create_user e st = (u.id, st) :=
        get_or_create_user_found e st u hfindU
      have hnru : is_user_registered u.id a.id st = false := hnr u hmem hue
      simp [key, hnru, register_user_not_registered u.id a.id st hnru]
  | none =>
      have key : get_or_create_user e st =
          (st.nextUserId,
           { st with users := st.users ++ [⟨st.nextUserId, e⟩],
                     nextUserId := st.nextUserId + 1 }) :=
        get_or_create_user_new e st hfindU
      have hnru : is_user_registered st.nextUserId a.id
          { st with users := st.users ++ [⟨st.nextUserId, e⟩],
                    nextUserId := st.nextUserId + 1 } = false := by
        apply is_user_registered_eq_false
        intro r hr'
        have : r.userId < st.nextUserId := hreg r hr'
        omega
      simp [key, hnru, register_user_not_registered _ _ _ hnru]

/-- Claim C1: signup returns 404 and creates no registration when the
activity name is unknown; returns 400 with the participant state
unchanged when the user with that email is already registered; and
otherwise inserts exactly one registration row for the resolved
(user, activity) pair and returns the 200 confirmation. -/
theorem signup_for_activity_spec (n e : String) (st : Store) (h : st.WF) :
    (activity_exists n st = false →
       signup_for_activity n e st = (.error ⟨404, "Activity not found"⟩, st)) ∧
    (∀ a ∈ st.activities, a.name = n → ∀ u ∈ st.users, u.email = e →
       is_user_registered u.id a.id st = true →
       signup_for_activity n e st =
         (.error ⟨400, "Student is already signed up"⟩, st)) ∧
    (∀ a ∈ st.activities, a.name = n →
       (∀ u ∈ st.users, u.email = e → is_user_registered u.id a.id st = false) →
       (signup_for_activity n e st).1 =
         .ok ("Signed up " ++ e ++ " for " ++ n) ∧
       (signup_for_activity n e st).2.registrations =
         st.registrations ++
           [⟨st.nextRegId, (get_or_create_user e st).1, a.id⟩]) := by
  refine ⟨fun hex => signup_not_found n e st hex, ?_, ?_⟩
  · intro a ha hn u hu hue hr
    exact signup_already_registered n e st h a ha hn u hu hue hr
  · intro a ha hn hnr
    rw [signup_success n e st h a ha hn hnr]
    exact ⟨rfl, rfl⟩

/-- Witness for C1 at a concrete store: a second signup of an already
registered participant is rejected as 400 with the store unchanged. -/
theorem signup_for_activity_spec_witness :
    signup_for_activity "Chess Club" "michael@mergington.edu" demo =
      (.error ⟨400, "Student is already signed up"⟩, demo) :=
  (signup_for_activity_spec "Chess Club" "michael@mergington.edu" demo
      (by decide)).2.1
    ⟨1, "Chess Club", "Learn strategies", "Fridays", 2⟩ (by decide) rfl
    ⟨1, "michael@mergington.edu"⟩ (by decide) rfl (by decide)

/-- Claim C9: capacity is never enforced.  Under no hypothesis on
`maxParticipants` — in particular even when the current participant
count equals or exceeds it — a signup for a user who is not already
registered succeeds and inserts a registration. -/
theorem signup_ignores_capacity (n e : String) (st : Store) (h : st.WF)
    (a : ActivityRow) (ha : a ∈ st.activities) (hn : a.name = n)
    (hnr : ∀ u ∈ st.users, u.email = e → is_user_registered u.id a.id st = false) :
    (signup_for_activity n e st).1 = .ok ("Signed up " ++ e ++ " for " ++ n) ∧
    (signup_for_activity n e st).2.registrations.length =
      st.registrations.length + 1 := by
  rw [signup_success n e st h a ha hn hnr]
  simp

/-- Witness for C9 at a concrete store whose only activity is already at
its `maxParticipants` (2 participants, capacity 2): signup succeeds and
adds a registration anyway. -/
theorem signup_ignores_capacity_witness :
    (∀ a ∈ demo.activities,
       a.maxParticipants ≤ ((activity_participants a.id demo).length : Int)) ∧
    ((signup_for_activity "Chess Club" "alice@x.edu" demo).1 =
       .ok ("Signed up " ++ "alice@x.edu" ++ " for " ++ "Chess Club") ∧
     (signup_for_activity "Chess Club" "alice@x.edu" demo).2.registrations.length =
       demo.registrations.length + 1) :=
  ⟨by decide,
   signup_ignores_capacity "Chess Club" "alice@x.edu" demo (by decide)
     ⟨1, "Chess Club", "Learn strategies", "Fridays", 2⟩ (by decide) rfl
     (by decide)⟩

/-! ### The unregister handler on a never-seen email -/

/-- When the activity exists but no user row carries the email, the
unregister handler answers 400 — but only after `get_or_create_user`
has already inserted a fresh user row. -/
theorem unregister_unknown_email (n e : String) (st : Store) (h : st.WF)
    (a : ActivityRow) (ha : a ∈ st.activities) (hn : a.name = n)
    (hnone : st.users.find? (fun u => u.email == e) = none) :
    unregister_from_activity n e st =
      (.error ⟨400, "Student is not signed up for this activity"⟩,
       { st with users := st.users ++ [⟨st.nextUserId, e⟩],
                 nextUserId := st.nextUserId + 1 }) := by
  obtain ⟨-, -, -, hnames, -, -, -, hreg⟩ := h
  subst hn
  have hfindA : st.activities.find? (fun x => x.name == a.name) = some a :=
    find_unique_key (fun x => x.name) st.activities a hnames ha
  unfold unregister_from_activity
  rw [show activity_exists a.name st = true by
        unfold activity_exists; rw [hfindA]; rfl]
  rw [show get_activity_id a.name st = some a.id by
        unfold get_activity_id; rw [hfindA]; rfl]
  have key : get_or_create_user e st =
      (st.nextUserId,
       { st with users := st.users ++ [⟨st.nextUserId, e⟩],
                 nextUserId := st.nextUserId + 1 }) :=
    get_or_create_user_new e st hnone
  have hnru : is_user_registered st.nextUserId a.id
      { st with users := st.users ++ [⟨st.nextUserId, e⟩],
                nextUserId := st.nextUserId + 1 } = false := by
    apply is_user_registered_eq_false
    intro r hr'
    have : r.userId < st.nextUserId := hreg r hr'
    omega
  simp [key, hnru]

/-- Claim C10: an unregister request for an existing activity with a
never-seen email is rejected with the 400 not-signed-up outcome, yet it
still grows the users table by exactly one row for that email, because
the handler calls `get_or_create_user` before the registration check. -/
theorem unregister_creates_user_row (n e : String) (st : Store) (h : st.WF)
    (a : ActivityRow) (ha : a ∈ st.activities) (hn : a.name = n)
    (hnew : ∀ u ∈ st.users, u.email ≠ e) :
    (unregister_from_activity n e st).1 =
      .error ⟨400, "Student is not signed up for this activity"⟩ ∧
    (unregister_from_activity n e st).2.users =
      st.users ++ [⟨st.nextUserId, e⟩] ∧
    (unregister_from_activity n e st).2.users.length = st.users.length + 1 := by
  have hnone : st.users.find? (fun u => u.email == e) = none := by
    rw [List.find?_eq_none]
    intro u hu
    simpa using hnew u hu
  rw [unregister_unknown_email n e st h a ha hn hnone]
  simp

/-- Witness for C10: unregistering a ghost email from the demo store is
rejected with 400 and still adds a third user row. -/
theorem unregister_creates_user_row_witness :
    (unregister_from_activity "Chess Club" "ghost@x.edu" demo).1 =
      .error ⟨400, "Student is not signed up for this activity"⟩ ∧
    (unregister_from_activity "Chess Club" "ghost@x.edu" demo).2.users =
      demo.users ++ [⟨demo.nextUserId, "ghost@x.edu"⟩] ∧
    (unregister_from_activity "Chess Club" "ghost@x.edu" demo).2.users.length =
      demo.users.length + 1 :=
  unregister_creates_user_row "Chess Club" "ghost@x.edu" demo (by decide)
    ⟨1, "Chess Club", "Learn strategies", "Fridays", 2⟩ (by decide) rfl
    (by decide)

/-- The registration check agrees with existence of a matching row. -/
theorem is_user_registered_iff (uid aid : Nat) (st : Store) :
    is_user_registered uid aid st = true ↔
      ∃ r ∈ st.registrations, r.userId = uid ∧ r.activityId = aid := by
  unfold is_user_registered
  rw [List.find?_isSome]
  simp

/-- Claim C6: `register_user` inserts one registration row and succeeds
when the (user, activity) pair is absent, and fails with a uniqueness
violation, leaving the registrations table unchanged, when the pair is
already present. -/
theorem register_user_spec (uid aid : Nat) (st : Store) :
    ((∀ r ∈ st.registrations, ¬(r.userId = uid ∧ r.activityId = aid)) →
       register_user uid aid st =
         (.ok (),
          { st with
              registrations := st.registrations ++ [⟨st.nextRegId, uid, aid⟩],
              nextRegId := st.nextRegId + 1 })) ∧
    ((∃ r ∈ st.registrations, r.userId = uid ∧ r.activityId = aid) →
       register_user uid aid st = (.error .uniqueViolation, st)) := by
  constructor
  · intro hnone
    have hfalse : is_user_registered uid aid st = false := by
      rw [Bool.eq_false_iff]
      intro ht
      rcases (is_user_registered_iff uid aid st).mp ht with ⟨r, hr, hp⟩
      exact hnone r hr hp
    exact register_user_not_registered uid aid st hfalse
  · intro hex
    exact register_user_registered uid aid st
      ((is_user_registered_iff uid aid st).mpr hex)

/-- Witness for C6: registering an already registered pair of the demo
store fails with the uniqueness violation and changes nothing. -/
theorem register_user_spec_witness :
    register_user 1 1 demo = (.error .uniqueViolation, demo) :=
  (register_user_spec 1 1 demo).2 ⟨⟨1, 1, 1⟩, by decide, by decide⟩

/-- Claim C7: `unregister_user` returns true exactly when a row for the
pair existed (and all such rows are deleted); when it returns false no
such row existed and the store is unchanged. -/
theorem unregister_user_spec (uid aid : Nat) (st : Store) :
    ((unregister_user uid aid st).1 = true ↔
       ∃ r ∈ st.registrations, r.userId = uid ∧ r.activityId = aid) ∧
    ((unregister_user uid aid st).2.registrations =
       st.registrations.filter
         (fun r => !(r.userId == uid && r.activityId == aid))) ∧
    ((unregister_user uid aid st).1 = false →
       (unregister_user uid aid st).2 = st) := by
  refine ⟨?_, rfl, ?_⟩
  · unfold unregister_user
    simp only [decide_eq_true_eq]
    rw [List.length_filter_lt_length_iff_exists]
    simp
  · intro hfalse
    unfold unregister_user at hfalse ⊢
    simp only [decide_eq_false_iff_not, Nat.not_lt] at hfalse
    have hle := List.length_filter_le
      (fun r => !(r.userId == uid && r.activityId == aid)) st.registrations
    have heq : (st.registrations.filter
        (fun r => !(r.userId == uid && r.activityId == aid))).length =
        st.registrations.length := Nat.le_antisymm hle hfalse
    have hself : st.registrations.filter
        (fun r => !(r.userId == uid && r.activityId == aid)) =
        st.registrations :=
      List.filter_eq_self.mpr (List.filter_length_eq_length.mp heq)
    rw [hself]

/-- Witness for C7: deleting an absent pair reports false and leaves the
demo store unchanged. -/
theorem unregister_user_spec_witness :
    (unregister_user 2 1 demo).1 = true ∧
    ((unregister_user 7 1 demo).1 = false → (unregister_user 7 1 demo).2 = demo) :=
  ⟨(unregister_user_spec 2 1 demo).1.mpr ⟨⟨2, 2, 1⟩, by decide, by decide⟩,
   (unregister_user_spec 7 1 demo).2.2⟩

/-- Claim C8: immediately after `register_user` the pair reads as
registered, and immediately after `unregister_user` it reads as
unregistered — the two operations move a pair between exactly the two
states of the check. -/
theorem register_unregister_state (uid aid : Nat) (st : Store) :
    is_user_registered uid aid (register_user uid aid st).2 = true ∧
    is_user_registered uid aid (unregister_user uid aid st).2 = false := by
  constructor
  · cases hb : st.registrations.any
        (fun r => r.userId == uid && r.activityId == aid) with
    | true =>
        have hst : (register_user uid aid st).2 = st := by
          simp [register_user, hb]
        rw [hst]
        unfold is_user_registered
        rw [← any_eq_find?_isSome, hb]
    | false =>
        have hst : (register_user uid aid st).2 =
            { st with
                registrations := st.registrations ++ [⟨st.nextRegId, uid, aid⟩],
                nextRegId := st.nextRegId + 1 } := by
          simp [register_user, hb]
        rw [hst]
        unfold is_user_registered
        rw [List.find?_append]
        simp
  · have hreg2 : (unregister_user uid aid st).2.registrations =
        st.registrations.filter
          (fun r => !(r.userId == uid && r.activityId == aid)) := rfl
    unfold is_user_registered
    rw [hreg2]
    have hnone : (st.registrations.filter
        (fun r => !(r.userId == uid && r.activityId == aid))).find?
          (fun r => r.userId == uid && r.activityId == aid) = none := by
      rw [List.find?_eq_none]
      intro r hrmem hc
      have h2 := (List.mem_filter.mp hrmem).2
      rw [hc] at h2
      simp at h2
    rw [hnone]
    rfl

/-! ### Seed migration -/

/-- `INSERT OR IGNORE` into users never touches the activities table. -/
theorem insert_or_ignore_user_activities (e : String) (st : Store) :
    (insert_or_ignore_user e st).activities = st.activities := by
  unfold insert_or_ignore_user
  split <;> rfl

/-- The participant loop of the migrator never touches the activities
table. -/
theorem seed_participant_activities (aid : Nat) (st : Store) (e : String) :
    (seed_participant aid st e).activities = st.activities := by
  unfold seed_participant
  dsimp only
  split
  · exact insert_or_ignore_user_activities e st
  · split <;> simp [insert_or_ignore_user_activities]

/-- Folding the participant loop never touches the activities table. -/
theorem foldl_seed_participant_activities (aid : Nat) :
    ∀ (l : List String) (st : Store),
      (l.foldl (seed_participant aid) st).activities = st.activities := by
  intro l
  induction l with
  | nil => intro st; rfl
  | cons x xs ih =>
      intro st
      rw [List.foldl_cons, ih, seed_participant_activities]

/-- Each seeded activity adds exactly one row to the activities table. -/
theorem seed_activity_length (st : Store) (entry : String × SeedActivity) :
    (seed_activity st entry).activities.length = st.activities.length + 1 := by
  unfold seed_activity
  rw [foldl_seed_participant_activities]
  simp

/-- The seed loop adds one activity row per input entry. -/
theorem foldl_seed_activity_length :
    ∀ (data : List (String × SeedActivity)) (st : Store),
      (data.foldl seed_activity st).activities.length =
        st.activities.length + data.length := by
  intro data
  induction data with
  | nil => intro st; simp
  | cons x xs ih =>
      intro st
      rw [List.foldl_cons, ih, seed_activity_length]
      simp only [List.length_cons]
      omega

/-- Claim C4: the migrator mutates the store only when the activities
table is empty, and running it a second time on its own output changes
nothing — in particular all row counts agree after one and two runs. -/
theorem migrate_existing_data_idempotent
    (data : List (String × SeedActivity)) (st : Store) :
    (st.activities.length ≠ 0 → migrate_existing_data data st = st) ∧
    migrate_existing_data data (migrate_existing_data data st) =
      migrate_existing_data data st := by
  constructor
  · intro hne
    have hb : (st.activities.length == 0) = false := by simpa using hne
    unfold migrate_existing_data
    rw [hb]
    rfl
  · cases hlen : st.activities.length == 0 with
    | false =>
        have h1 : migrate_existing_data data st = st := by
          unfold migrate_existing_data; rw [hlen]; rfl
        rw [h1]
        exact h1
    | true =>
        have h1 : migrate_existing_data data st
            = data.foldl seed_activity st := by
          unfold migrate_existing_data; rw [hlen]; rfl
        rw [h1]
        cases data with
        | nil =>
            have h0 : ([] : List (String × SeedActivity)).foldl seed_activity st
                = st := rfl
            rw [h0]
            unfold migrate_existing_data
            rw [hlen]
            rfl
        | cons d ds =>
            have hlen' : st.activities.length = 0 := by simpa using hlen
            have h2 : (((d :: ds).foldl seed_activity st).activities.length == 0)
                = false := by
              rw [foldl_seed_activity_length, hlen']
              simp
            unfold migrate_existing_data
            rw [h2]
            rfl

/-- Witness for C4: a second run of the migrator on the seeded empty
store is a no-op, and the migrator does nothing to the non-empty demo
store. -/
theorem migrate_existing_data_idempotent_witness :
    migrate_existing_data [("Chess Club", ⟨"d", "s", 12, ["a@x", "b@x"]⟩)] demo
      = demo ∧
    migrate_existing_data [("Chess Club", ⟨"d", "s", 12, ["a@x", "b@x"]⟩)]
        (migrate_existing_data
          [("Chess Club", ⟨"d", "s", 12, ["a@x", "b@x"]⟩)] Store.empty) =
      migrate_existing_data
        [("Chess Club", ⟨"d", "s", 12, ["a@x", "b@x"]⟩)] Store.empty :=
  ⟨(migrate_existing_data_idempotent
      [("Chess Club", ⟨"d", "s", 12, ["a@x", "b@x"]⟩)] demo).1 (by decide),
   (migrate_existing_data_idempotent
      [("Chess Club", ⟨"d", "s", 12, ["a@x", "b@x"]⟩)] Store.empty).2⟩

/-! ### Reading all activities -/

/-- Looking a member's key up in the keyed image of a list with
duplicate-free keys returns that member's value. -/
theorem lookup_map_unique_key {α γ : Type} (f : α → String) (g : α → γ) :
    ∀ (l : List α) (a : α), (l.map f).Nodup → a ∈ l →
      (l.map (fun x => (f x, g x))).lookup (f a) = some (g a) := by
  intro l
  induction l with
  | nil => intro a _ ha; cases ha
  | cons x xs ih =>
      intro a hnd hmem
      rw [List.map_cons, List.nodup_cons] at hnd
      rw [List.map_cons, List.lookup_cons]
      rcases List.mem_cons.mp hmem with h | h
      · subst h
        simp
      · have hne : f x ≠ f a := by
          intro he
          exact hnd.1 (he ▸ List.mem_map_of_mem f h)
        have hbeq : (f a == f x) = false := by
          simp [Ne.symm hne]
        simp [hbeq, ih a hnd.2 h]

/-- Claim C5: `get_all_activities` returns one entry per activity row,
keyed by its name without duplicates, carrying the row's description,
schedule, max participants and participant email list; an activity with
zero registrations still appears, with an empty participant list. -/
theorem get_all_activities_spec (st : Store) (h : st.WF) :
    ((get_all_activities st).map Prod.fst).Nodup ∧
    ((get_all_activities st).map Prod.fst =
       st.activities.map (fun a => a.name)) ∧
    (∀ a ∈ st.activities,
       (get_all_activities st).lookup a.name =
         some ⟨a.description, a.schedule, a.maxParticipants,
               activity_participants a.id st⟩) ∧
    (∀ a ∈ st.activities,
       (∀ r ∈ st.registrations, r.activityId ≠ a.id) →
         (get_all_activities st).lookup a.name =
           some ⟨a.description, a.schedule, a.maxParticipants, []⟩) := by
  obtain ⟨-, -, -, hnames, -, -, -, -⟩ := h
  have hkeys : (get_all_activities st).map Prod.fst =
      st.activities.map (fun a => a.name) := by
    unfold get_all_activities
    rw [List.map_map]
    rfl
  have hlook : ∀ a ∈ st.activities,
      (get_all_activities st).lookup a.name =
        some ⟨a.description, a.schedule, a.maxParticipants,
              activity_participants a.id st⟩ := by
    intro a ha
    exact lookup_map_unique_key (fun x => x.name)
      (fun x => (⟨x.description, x.schedule, x.maxParticipants,
                  activity_participants x.id st⟩ : ActivityInfo))
      st.activities a hnames ha
  refine ⟨by rw [hkeys]; exact hnames, hkeys, hlook, ?_⟩
  intro a ha hno
  have hempty : activity_participants a.id st = [] := by
    unfold activity_participants
    have hfe : st.registrations.filter (fun r => r.activityId == a.id) = [] := by
      rw [List.filter_eq_nil_iff]
      intro r hr hc
      exact hno r hr (by simpa using hc)
    rw [hfe]
    rfl
  rw [hlook a ha, hempty]

/-- Witness for C5 at the demo store. -/
theorem get_all_activities_spec_witness :
    ((get_all_activities demo).map Prod.fst).Nodup ∧
    ((get_all_activities demo).map Prod.fst =
       demo.activities.map (fun a => a.name)) ∧
    (∀ a ∈ demo.activities,
       (get_all_activities demo).lookup a.name =
         some ⟨a.description, a.schedule, a.maxParticipants,
               activity_participants a.id demo⟩) ∧
    (∀ a ∈ demo.activities,
       (∀ r ∈ demo.registrations, r.activityId ≠ a.id) →
         (get_all_activities demo).lookup a.name =
           some ⟨a.description, a.schedule, a.maxParticipants, []⟩) :=
  get_all_activities_spec demo (by decide)

/-- Claim C3: seeding an empty store with a "Chess Club" activity whose
participants are the emails `a` and `b` and then reading all activities
yields a "Chess Club" entry whose participant list holds exactly the set
consisting of `a` and `b`, in some order. -/
theorem seeded_chess_round_trip (d s : String) (m : Int) (a b : String) :
    ∃ info : ActivityInfo,
      (get_all_activities
        (migrate_existing_data [("Chess Club", ⟨d, s, m, [a, b]⟩)]
          Store.empty)).lookup "Chess Club" = some info ∧
      ∀ p : String, p ∈ info.participants ↔ (p = a ∨ p = b) := by
  by_cases hab : a = b
  · subst hab
    refine ⟨⟨d, s, m, [a]⟩, ?_, ?_⟩
    · simp [migrate_existing_data, seed_activity, seed_participant,
        insert_or_ignore_user, get_all_activities, activity_participants,
        Store.empty, List.lookup]
    · intro p
      simp
  · have hab' : (a == b) = false := by simp [hab]
    refine ⟨⟨d, s, m, [a, b]⟩, ?_, ?_⟩
    · simp [migrate_existing_data, seed_activity, seed_participant,
        insert_or_ignore_user, get_all_activities, activity_participants,
        Store.empty, List.lookup, hab']
    · intro p
      simp [List.mem_cons]

end Activities
